import Mathlib

/-!
Shallow embedding of the tomulator schema-driven CRUD core: the generic
row service and table definition service (src/database/queries.ts), the
express route handlers that call them, and the table-creator form
validation (validateForm), together with theorems checking the
specification's claims about them.

Conventions of the embedding:
- a JS object payload is an association list `List (String × Value)` whose
  key order models the JS property order seen by Object.keys/Object.values;
- every statement handed to pool.query is a `Stmt`: the SQL text exactly as
  the code assembles it, plus the bound parameter vector;
- each service function returns its result together with the list of
  statements it issued, so that "performs no database statement" and
  "values are bound, never interpolated" are directly statable;
- the semantics of each issued statement against the database engine is
  embedded by an exec function for the exact statement shape the code
  issues (the engine itself is an external collaborator in the spec).
-/

namespace Tomulator

/-- Scalar values handled by the row service: the JS values the handlers
bind as query parameters (strings, numbers, booleans, null). -/
inductive Value where
  | str (s : String)
  | int (n : Int)
  | bool (b : Bool)
  | null
  deriving DecidableEq, Repr

/-- One row of the catalog view information_schema.columns, restricted to
the fields getTableSchema selects (queries.ts lines 3-8, 28-37). -/
structure Column where
  column_name : String
  data_type : String
  is_nullable : String
  column_default : Option String
  deriving DecidableEq, Repr

/-- A stored row: the generated integer id plus the remaining fields. -/
structure Row where
  id : Int
  fields : List (String × Value)
  deriving DecidableEq, Repr

/-- A table of the public schema: its name, its columns in declared
(ordinal) order, and its rows in physical order. -/
structure Table where
  name : String
  columns : List Column
  rows : List Row
  deriving DecidableEq, Repr

/-- The database state: the tables of the public schema. -/
abbrev DB := List Table

/-- A SQL statement as handed to pool.query: SQL text and bound
parameter vector. -/
abbrev Stmt := String × List Value

/-- Table lookup by name (engine name resolution for an interpolated
table identifier). -/
def findTable (db : DB) (t : String) : Option Table :=
  db.find? (fun tbl => tbl.name == t)

/-- Names of all tables in the database (the catalog-derived table list
that getAllTables returns). -/
def tableNames (db : DB) : List String :=
  db.map Table.name

/-- Replace the table with the given name by an updated copy. -/
def replaceTable (db : DB) (tbl : Table) : DB :=
  db.map (fun x => if x.name == tbl.name then tbl else x)

/-- Catalog view information_schema.columns as derived from the database
state: one entry (table_name, ordinal_position, column) per column of
every table, ordinal positions starting at 1 in declared order. -/
def catalogColumns (db : DB) : List (String × Nat × Column) :=
  db.flatMap (fun tbl => tbl.columns.enum.map (fun ic => (tbl.name, ic.1 + 1, ic.2)))

/-- Engine semantics of ORDER BY ordinal_position: a stable sort of the
selected catalog entries on their ordinal position. -/
def orderByOrdinal (l : List (String × Nat × Column)) : List (String × Nat × Column) :=
  l.mergeSort (fun a b => decide (a.2.1 ≤ b.2.1))

/-- Engine semantics of the parameterized catalog probe
SELECT column_name FROM information_schema.columns
WHERE table_name = $1 AND column_name = (literal):
true when the catalog holds such an entry. -/
def columnExists (db : DB) (tableName columnName : String) : Bool :=
  db.any (fun tbl => tbl.name == tableName &&
    tbl.columns.any (fun c => c.column_name == columnName))

/-- Embeds getTableSchema (queries.ts 28-37): a parameterized catalog query
filtered on table_name, ordered by ordinal_position; an absent table gives
zero catalog rows, not an error. -/
def getTableSchema (db : DB) (tableName : String) : List Column :=
  (orderByOrdinal ((catalogColumns db).filter (fun r => r.1 == tableName))).map
    (fun r => r.2.2)

/-- SQL text issued by getTableData (queries.ts line 41): the table name is
interpolated into the text and no parameters are bound. -/
def getTableDataStmt (tableName : String) : Stmt :=
  ("SELECT * FROM " ++ tableName ++ " ORDER BY id", [])

/-- Embeds getTableData (queries.ts 40-44): select-all against the named
table, ordered by id ascending. -/
def getTableData (db : DB) (tableName : String) :
    Except String (List Row) × List Stmt :=
  (match findTable db tableName with
   | none => .error "relation does not exist"
   | some tbl => .ok (tbl.rows.mergeSort (fun a b => decide (a.id ≤ b.id))),
   [getTableDataStmt tableName])

/-- Statement built by insertRow (queries.ts 48-56): column list is the
payload keys joined into the text, values become $1..$n placeholders and
are passed as the parameter vector. -/
def insertRowStmt (tableName : String) (data : List (String × Value)) : Stmt :=
  let columns := data.map Prod.fst
  let values := data.map Prod.snd
  let placeholders :=
    String.intercalate ", " ((List.range values.length).map (fun i => "$" ++ toString (i + 1)))
  ("\n    INSERT INTO " ++ tableName ++ " (" ++ String.intercalate ", " columns ++
     ") \n    VALUES (" ++ placeholders ++ ") \n    RETURNING *\n  ",
   values)

/-- Engine semantics of the INSERT ... RETURNING * statement insertRow
issues: the table must exist and every listed column must be a catalog
column of it; the engine assigns the next id and appends the row. -/
def execInsert (db : DB) (tableName : String) (data : List (String × Value)) :
    Except String (DB × Row) :=
  match findTable db tableName with
  | none => .error "relation does not exist"
  | some tbl =>
    if data.all (fun kv => tbl.columns.any (fun c => c.column_name == kv.1)) then
      let newId := (tbl.rows.map Row.id).foldl max 0 + 1
      let newRow : Row := ⟨newId, data⟩
      .ok (replaceTable db { tbl with rows := tbl.rows ++ [newRow] }, newRow)
    else .error "column does not exist"

/-- Embeds insertRow (queries.ts 47-60): builds the statement from the
payload keys and values and executes it directly; no check of the table
name or column names happens before the statement is issued. -/
def insertRow (db : DB) (tableName : String) (data : List (String × Value)) :
    Except String (DB × Row) × List Stmt :=
  (execInsert db tableName data, [insertRowStmt tableName data])

/-- Embeds the destructuring on queries.ts line 65, which removes the keys
id, created_at and updated_at from the payload and keeps everything else. -/
def stripServerFields (data : List (String × Value)) : List (String × Value) :=
  data.filter (fun kv => !(kv.1 == "id" || kv.1 == "created_at" || kv.1 == "updated_at"))

/-- Statement built by updateRow (queries.ts 67-80): SET clause from the
stripped payload keys with $1..$n placeholders, WHERE id = $(n+1); the
parameter vector is the payload values followed by the id. -/
def updateRowStmt (tableName : String) (id : Int)
    (updateData : List (String × Value)) : Stmt :=
  let columns := updateData.map Prod.fst
  let values := updateData.map Prod.snd
  let setClause :=
    String.intercalate ", "
      (columns.enum.map (fun ic => ic.2 ++ " = $" ++ toString (ic.1 + 1)))
  ("\n    UPDATE " ++ tableName ++ " \n    SET " ++ setClause ++
     "\n    WHERE id = $" ++ toString (values.length + 1) ++ " \n    RETURNING *\n  ",
   values ++ [Value.int id])

/-- Overwrite (or, for a column the row tuple does not carry yet, adjoin)
one field of a row tuple. -/
def setField (fields : List (String × Value)) (k : String) (v : Value) :
    List (String × Value) :=
  if fields.any (fun kv => kv.1 == k) then
    fields.map (fun kv => if kv.1 == k then (k, v) else kv)
  else
    fields ++ [(k, v)]

/-- Apply a SET clause to one row. -/
def applySets (r : Row) (sets : List (String × Value)) : Row :=
  { r with fields := sets.foldl (fun fs kv => setField fs kv.1 kv.2) r.fields }

/-- Engine semantics of UPDATE ... SET ... WHERE id = $k RETURNING *: the
table must exist and every SET column must be a catalog column; all rows
with the given id are updated and returned. -/
def execUpdateById (db : DB) (tableName : String) (id : Int)
    (sets : List (String × Value)) : Except String (DB × List Row) :=
  match findTable db tableName with
  | none => .error "relation does not exist"
  | some tbl =>
    if sets.all (fun kv => tbl.columns.any (fun c => c.column_name == kv.1)) then
      let updated := (tbl.rows.filter (fun r => r.id == id)).map (fun r => applySets r sets)
      let newRows := tbl.rows.map (fun r => if r.id == id then applySets r sets else r)
      .ok (replaceTable db { tbl with rows := newRows }, updated)
    else .error "column does not exist"

/-- Embeds updateRow (queries.ts 63-84): strips server-owned keys, throws
before issuing any statement when nothing is left to set, otherwise issues
one parameterized UPDATE and returns result.rows[0] (none when zero rows
matched). -/
def updateRow (db : DB) (tableName : String) (id : Int)
    (data : List (String × Value)) :
    Except String (DB × Option Row) × List Stmt :=
  let updateData := stripServerFields data
  if updateData.isEmpty then
    (.error "No valid columns to update", [])
  else
    match execUpdateById db tableName id updateData with
    | .error e => (.error e, [updateRowStmt tableName id updateData])
    | .ok (db2, rows) => (.ok (db2, rows.head?), [updateRowStmt tableName id updateData])

/-- SQL text of the physical delete issued by deleteRow
(queries.ts lines 90 and 109): the id is bound as $1. -/
def deleteByIdStmt (tableName : String) (id : Int) : Stmt :=
  ("DELETE FROM " ++ tableName ++ " WHERE id = $1", [Value.int id])

/-- The parameterized catalog probe for an is_deleted column issued by
deleteRow (queries.ts 95-100). -/
def isDeletedCheckStmt (tableName : String) : Stmt :=
  ("\n      SELECT column_name \n      FROM information_schema.columns \n      WHERE table_name = $1 AND column_name = \x27is_deleted\x27\n    ",
   [Value.str tableName])

/-- The soft-delete update issued by deleteRow (queries.ts line 104). -/
def softDeleteStmt (tableName : String) (id : Int) : Stmt :=
  ("UPDATE " ++ tableName ++ " SET is_deleted = \x27true\x27 WHERE id = $1",
   [Value.int id])

/-- Engine semantics of DELETE FROM ... WHERE id = $1: the table must
exist; all rows with the given id are removed and counted (rowCount). -/
def execDeleteById (db : DB) (tableName : String) (id : Int) :
    Except String (DB × Nat) :=
  match findTable db tableName with
  | none => .error "relation does not exist"
  | some tbl =>
    let remaining := tbl.rows.filter (fun r => !(r.id == id))
    .ok (replaceTable db { tbl with rows := remaining },
         tbl.rows.countP (fun r => r.id == id))

/-- Embeds deleteRow (queries.ts 87-114): hard deletes physically; soft
first probes the catalog for an is_deleted column on the table, updates
is_deleted to the text true when present, and otherwise falls back to the
physical delete. Each branch returns rowCount greater than zero. -/
def deleteRow (db : DB) (tableName : String) (id : Int)
    (hardDelete : Bool) : Except String (DB × Bool) × List Stmt :=
  if hardDelete then
    match execDeleteById db tableName id with
    | .error e => (.error e, [deleteByIdStmt tableName id])
    | .ok (db2, n) => (.ok (db2, decide (n > 0)), [deleteByIdStmt tableName id])
  else
    if columnExists db tableName "is_deleted" then
      match execUpdateById db tableName id [("is_deleted", Value.str "true")] with
      | .error e => (.error e, [isDeletedCheckStmt tableName, softDeleteStmt tableName id])
      | .ok (db2, rows) =>
        (.ok (db2, decide (rows.length > 0)),
         [isDeletedCheckStmt tableName, softDeleteStmt tableName id])
    else
      match execDeleteById db tableName id with
      | .error e => (.error e, [isDeletedCheckStmt tableName, deleteByIdStmt tableName id])
      | .ok (db2, n) =>
        (.ok (db2, decide (n > 0)),
         [isDeletedCheckStmt tableName, deleteByIdStmt tableName id])

/-- Column specification consumed by createTable (queries.ts 117-124) and
produced by the table-creator form (ColumnDefinition in the creator
component): name, type, nullability, primary key flag, the overloaded
free-text default field, and the auto-increment flag. -/
structure ColumnSpec where
  name : String
  type : String
  isNullable : Bool
  isPrimaryKey : Bool
  defaultValue : String
  isAutoIncrement : Bool
  deriving DecidableEq, Repr

/-- Type rendering of createTable (queries.ts 130-138): for VARCHAR/CHAR
the defaultValue field is the length (255 when blank, JS falsiness of the
empty string); for NUMERIC/DECIMAL it is precision,scale (10,2 when
blank); other types are rendered bare. -/
def renderType (col : ColumnSpec) : String :=
  if col.type == "VARCHAR" || col.type == "CHAR" then
    col.type ++ "(" ++ (if col.defaultValue == "" then "255" else col.defaultValue) ++ ")"
  else if col.type == "NUMERIC" || col.type == "DECIMAL" then
    col.type ++ "(" ++ (if col.defaultValue == "" then "10,2" else col.defaultValue) ++ ")"
  else
    col.type

/-- DEFAULT clause of createTable (queries.ts 153-161): appended when the
defaultValue field is non-blank, the type is not SERIAL and the column is
not auto-increment; quoted for textual types, bare otherwise. -/
def defaultClause (col : ColumnSpec) : String :=
  if !(col.defaultValue == "") && !(col.type == "SERIAL") && !col.isAutoIncrement then
    if col.type == "BOOLEAN" then
      " DEFAULT " ++ col.defaultValue
    else if col.type == "TEXT" || col.type == "VARCHAR" || col.type == "CHAR" then
      " DEFAULT \x27" ++ col.defaultValue ++ "\x27"
    else
      " DEFAULT " ++ col.defaultValue
  else
    ""

/-- One rendered column definition of createTable (queries.ts 126-164):
name, a space, the rendered type, then NOT NULL, PRIMARY KEY, the identity
clause for auto-increment INTEGER/BIGINT, and the DEFAULT clause, each
appended under its condition in this order. -/
def columnDefinition (col : ColumnSpec) : String :=
  col.name ++ " " ++ renderType col ++
    (if !col.isNullable then " NOT NULL" else "") ++
    (if col.isPrimaryKey then " PRIMARY KEY" else "") ++
    (if col.isAutoIncrement && (col.type == "INTEGER" || col.type == "BIGINT") then
      " GENERATED ALWAYS AS IDENTITY"
    else "") ++
    defaultClause col

/-- The CREATE TABLE statement assembled by createTable
(queries.ts 166-170). -/
def createTableStmt (tableName : String) (columns : List ColumnSpec) : Stmt :=
  ("\n    CREATE TABLE " ++ tableName ++ " (\n      " ++
     String.intercalate ",\n      " (columns.map columnDefinition) ++ "\n    )\n  ",
   [])

/-- The parameterized catalog probe for a created_at column issued by
createTable (queries.ts 175-180). -/
def createdAtCheckStmt (tableName : String) : Stmt :=
  ("\n    SELECT column_name \n    FROM information_schema.columns \n    WHERE table_name = $1 AND column_name = \x27created_at\x27\n  ",
   [Value.str tableName])

/-- The ALTER TABLE statement adding the audit column
(queries.ts 183-186). -/
def addCreatedAtStmt (tableName : String) : Stmt :=
  ("\n      ALTER TABLE " ++ tableName ++
     " \n      ADD COLUMN created_at TIMESTAMP DEFAULT CURRENT_TIMESTAMP\n    ",
   [])

/-- Catalog column created for one ColumnSpec when the CREATE TABLE
statement executes. -/
def specToColumn (col : ColumnSpec) : Column :=
  { column_name := col.name
    data_type := col.type
    is_nullable := if col.isNullable then "YES" else "NO"
    column_default := if col.defaultValue == "" then none else some col.defaultValue }

/-- Engine semantics of the CREATE TABLE statement: fails when a table of
that name exists, otherwise appends an empty table with the declared
columns in order. -/
def execCreateTable (db : DB) (tableName : String) (columns : List ColumnSpec) :
    Except String DB :=
  match findTable db tableName with
  | some _ => .error "relation already exists"
  | none => .ok (db ++ [{ name := tableName, columns := columns.map specToColumn, rows := [] }])

/-- Engine semantics of the ALTER TABLE ... ADD COLUMN created_at
TIMESTAMP DEFAULT CURRENT_TIMESTAMP statement: appends the audit column to
the named table. -/
def execAddCreatedAt (db : DB) (tableName : String) : Except String DB :=
  match findTable db tableName with
  | none => .error "relation does not exist"
  | some tbl =>
    .ok (replaceTable db { tbl with columns := tbl.columns ++
      [{ column_name := "created_at", data_type := "timestamp without time zone",
         is_nullable := "YES", column_default := some "CURRENT_TIMESTAMP" }] })

/-- Embeds createTable (queries.ts 117-189): executes the assembled CREATE
TABLE, then probes the catalog for a created_at column on the new table
and, when absent, issues the ALTER TABLE adding it. -/
def createTable (db : DB) (tableName : String) (columns : List ColumnSpec) :
    Except String DB × List Stmt :=
  match execCreateTable db tableName columns with
  | .error e => (.error e, [createTableStmt tableName columns])
  | .ok db1 =>
    if columnExists db1 tableName "created_at" then
      (.ok db1, [createTableStmt tableName columns, createdAtCheckStmt tableName])
    else
      match execAddCreatedAt db1 tableName with
      | .error e =>
        (.error e,
         [createTableStmt tableName columns, createdAtCheckStmt tableName,
          addCreatedAtStmt tableName])
      | .ok db2 =>
        (.ok db2,
         [createTableStmt tableName columns, createdAtCheckStmt tableName,
          addCreatedAtStmt tableName])

/-- The DROP TABLE statement issued by deleteTable (queries.ts 192-196). -/
def deleteTableStmt (tableName : String) : Stmt :=
  ("DROP TABLE IF EXISTS " ++ tableName ++ " CASCADE", [])

/-- Embeds deleteTable (queries.ts 192-196) with the engine semantics of
DROP TABLE IF EXISTS ... CASCADE: removing an absent table succeeds and is
a no-op; dependent objects of an existing table go with it (the model
tracks no separate dependent objects, CASCADE is part of the issued
text). -/
def deleteTable (db : DB) (tableName : String) : Except String DB × List Stmt :=
  (.ok (db.filter (fun tbl => !(tbl.name == tableName))), [deleteTableStmt tableName])

/-- JS whitespace test shared by String.prototype.trim and parseInt: the
ECMAScript WhiteSpace characters (TAB, VT, FF, SP, NBSP, ZWNBSP/BOM and
the Unicode space separators Zs) together with the LineTerminator
characters (LF, CR, LS, PS). -/
def isJsWhitespace (c : Char) : Bool :=
  c == ' ' || c == '\t' || c == '\n' || c == '\r' ||
  c == '\x0b' || c == '\x0c' ||
  c.toNat == 0xa0 || c.toNat == 0x1680 ||
  (0x2000 ≤ c.toNat && c.toNat ≤ 0x200a) ||
  c.toNat == 0x2028 || c.toNat == 0x2029 ||
  c.toNat == 0x202f || c.toNat == 0x205f ||
  c.toNat == 0x3000 || c.toNat == 0xfeff

/-- JS String.prototype.trim on the characters of a string. -/
def jsTrim (s : String) : String :=
  ⟨((s.toList.dropWhile isJsWhitespace).reverse.dropWhile isJsWhitespace).reverse⟩

/-- First character class of the identifier regex used by validateForm:
a letter a-z, A-Z or an underscore. -/
def isIdentStart (c : Char) : Bool :=
  (('a' ≤ c && c ≤ 'z') || ('A' ≤ c && c ≤ 'Z')) || c == '_'

/-- Subsequent character class of the identifier regex: additionally the
digits 0-9. -/
def isIdentRest (c : Char) : Bool :=
  isIdentStart c || ('0' ≤ c && c ≤ '9')

/-- The anchored identifier regex of validateForm and the spec,
a letter or underscore followed by letters, digits and underscores. -/
def matchesIdentPattern (s : String) : Bool :=
  match s.toList with
  | [] => false
  | c :: cs => isIdentStart c && cs.all isIdentRest

/-- Numeric value of the leading decimal digits of a character list. -/
def leadingDigitsVal (cs : List Char) : Option Nat :=
  let ds := cs.takeWhile Char.isDigit
  if ds.isEmpty then none
  else some (ds.foldl (fun a c => a * 10 + (c.toNat - 48)) 0)

/-- Value of one hexadecimal digit (0-9, a-f, A-F). -/
def hexDigitVal (c : Char) : Option Nat :=
  if '0' ≤ c ∧ c ≤ '9' then some (c.toNat - 48)
  else if 'a' ≤ c ∧ c ≤ 'f' then some (c.toNat - 87)
  else if 'A' ≤ c ∧ c ≤ 'F' then some (c.toNat - 55)
  else none

/-- Numeric value of the leading hexadecimal digits of a character
list. -/
def leadingHexDigitsVal (cs : List Char) : Option Nat :=
  let ds := cs.takeWhile (fun c => (hexDigitVal c).isSome)
  if ds.isEmpty then none
  else some (ds.foldl (fun a c => a * 16 + (hexDigitVal c).getD 0) 0)

/-- Radix selection of radix-unspecified JS parseInt after sign handling:
a 0x or 0X prefix switches to hexadecimal and is stripped, anything else
parses as decimal; none models NaN (no digits in the selected radix, also
for a bare 0x prefix). -/
def parseUnsignedJS (cs : List Char) : Option Nat :=
  match cs with
  | '0' :: 'x' :: rest => leadingHexDigitsVal rest
  | '0' :: 'X' :: rest => leadingHexDigitsVal rest
  | _ => leadingDigitsVal cs

/-- JS parseInt as validateForm calls it, with the radix argument
unspecified: skips leading JS whitespace, honors one optional sign,
auto-detects a hexadecimal 0x/0X prefix and otherwise reads the leading
decimal digit run; none models NaN. -/
def parseIntJS (s : String) : Option Int :=
  match s.toList.dropWhile isJsWhitespace with
  | '-' :: cs => (parseUnsignedJS cs).map (fun n => -(n : Int))
  | '+' :: cs => (parseUnsignedJS cs).map (fun n => (n : Int))
  | cs => (parseUnsignedJS cs).map (fun n => (n : Int))

/-- JS comparison parseInt(v) rendered as less-or-equal zero: NaN compared
to a number is false, so a value with no leading digits passes. -/
def parsesNonpositive (s : String) : Bool :=
  match parseIntJS s with
  | some n => decide (n ≤ 0)
  | none => false

/-- Per-column body of the validateForm loop (creator component): the
column name must be non-blank and match the identifier pattern, and a
VARCHAR/CHAR column is rejected when its default field is blank or
parseInt of it compares less-or-equal zero. -/
def validColumn (col : ColumnSpec) : Bool :=
  !(jsTrim col.name == "") &&
  matchesIdentPattern col.name &&
  (if col.type == "VARCHAR" || col.type == "CHAR" then
    !(col.defaultValue == "" || parsesNonpositive col.defaultValue)
  else true)

/-- Embeds validateForm of the table-creator component: table name
non-blank and matching the identifier pattern, at least 2 columns, some
primary-key column, and every column passing the per-column checks. -/
def validateForm (tableName : String) (columns : List ColumnSpec) : Bool :=
  !(jsTrim tableName == "") &&
  matchesIdentPattern tableName &&
  !(columns.length < 2) &&
  columns.any ColumnSpec.isPrimaryKey &&
  columns.all validColumn

/-- Claim-side property stated by the spec for the row operations (claim
C1): a row statement is issued only after the interpolated identifiers —
the table name and the payload column names — have been validated against
catalog-derived names known to the Introspector. -/
def rowIdentifiersCatalogValidated : Prop :=
  ∀ (db : DB) (tableName : String) (data : List (String × Value)),
    (insertRow db tableName data).2 ≠ [] →
    tableName ∈ tableNames db ∧
      ∀ k ∈ data.map Prod.fst, columnExists db tableName k = true

/-- Claim-side rendering of one column definition exactly as claim C4
words it: name then type — with the defaultValue field as VARCHAR/CHAR
length (255 if blank) or NUMERIC/DECIMAL precision,scale (10,2 if
blank) — then NOT NULL if isNullable is false, PRIMARY KEY if
isPrimaryKey, and the identity clause if isAutoIncrement and the type is
integer-family. The spec carves the SERIAL case out of the identity
clause (the type itself auto-increments) and the creator form resets
isAutoIncrement for every type other than SERIAL, INTEGER and BIGINT, so
integer-family here means INTEGER or BIGINT. -/
def claimedColumnRendering (col : ColumnSpec) : String :=
  col.name ++ " " ++
  (if col.type = "VARCHAR" ∨ col.type = "CHAR" then
    col.type ++ "(" ++ (if col.defaultValue = "" then "255" else col.defaultValue) ++ ")"
  else if col.type = "NUMERIC" ∨ col.type = "DECIMAL" then
    col.type ++ "(" ++ (if col.defaultValue = "" then "10,2" else col.defaultValue) ++ ")"
  else col.type) ++
  (if col.isNullable = false then " NOT NULL" else "") ++
  (if col.isPrimaryKey = true then " PRIMARY KEY" else "") ++
  (if col.isAutoIncrement = true ∧ (col.type = "INTEGER" ∨ col.type = "BIGINT") then
    " GENERATED ALWAYS AS IDENTITY"
  else "")

/-- Claim-side Prop for claim C8 as stated: the validation boundary
rejects every specification whose table name or some column name fails
the identifier pattern, or with fewer than 2 columns, or with no
primary-key column, or with a VARCHAR/CHAR column lacking a
positive-length value in its overloaded default field (read as: every
value the field parses to is non-positive, so a field with no leading
digits also lacks one). -/
def claimedCreateTableRejection : Prop :=
  ∀ (tableName : String) (columns : List ColumnSpec),
    (¬ matchesIdentPattern tableName = true ∨
     (∃ c ∈ columns, ¬ matchesIdentPattern c.name = true) ∨
     columns.length < 2 ∨
     (∀ c ∈ columns, c.isPrimaryKey = false) ∨
     (∃ c ∈ columns, (c.type = "VARCHAR" ∨ c.type = "CHAR") ∧
        ∀ k : Int, parseIntJS c.defaultValue = some k → k ≤ 0)) →
    validateForm tableName columns = false

/-- C1 (counterexample): the claimed identifier validation does not happen
in the code — insertRow issues its statement with the table name
interpolated even against an empty catalog that knows no table at all. -/
theorem C1_counterexample : ¬ rowIdentifiersCatalogValidated := by
  intro h
  have hmem := (h [] "users" [("name", Value.str "x")] (by simp [insertRow])).1
  simp [tableNames] at hmem

/-- C1 (amended): for insertRow, updateRow and listRows the caller data
values are passed to the database only as bound parameters — the SQL text
is a function of the table name and the payload keys alone, and the bound
parameter vector is exactly the payload values (followed by the id for
update) — but the interpolated identifiers are not validated against
catalog-derived names: the statement is issued for every table name and
key list whatever the database holds. -/
theorem C1_values_bound_identifiers_unchecked
    (db : DB) (tableName : String) (id : Int)
    (d1 d2 : List (String × Value))
    (hkeys : d1.map Prod.fst = d2.map Prod.fst) :
    (insertRowStmt tableName d1).1 = (insertRowStmt tableName d2).1 ∧
    (insertRowStmt tableName d1).2 = d1.map Prod.snd ∧
    (updateRowStmt tableName id d1).1 = (updateRowStmt tableName id d2).1 ∧
    (updateRowStmt tableName id d1).2 = d1.map Prod.snd ++ [Value.int id] ∧
    (insertRow db tableName d1).2 = [insertRowStmt tableName d1] ∧
    (stripServerFields d1 ≠ [] →
      (updateRow db tableName id d1).2 =
        [updateRowStmt tableName id (stripServerFields d1)]) ∧
    (getTableData db tableName).2 = [getTableDataStmt tableName] ∧
    (getTableDataStmt tableName).2 = [] := by
  have hlen : d1.length = d2.length := by
    have := congrArg List.length hkeys
    simpa using this
  refine ⟨?_, ?_, ?_, ?_, rfl, ?_, rfl, rfl⟩
  · simp [insertRowStmt, hkeys, hlen]
  · simp [insertRowStmt]
  · simp [updateRowStmt, hkeys, hlen]
  · simp [updateRowStmt]
  · intro hne
    rcases hexec : execUpdateById db tableName id (stripServerFields d1) with e | p
    · simp [updateRow, List.isEmpty_iff, hne, hexec]
    · simp [updateRow, List.isEmpty_iff, hne, hexec]

/-- C1 (witness): concrete instance — two payloads with the same key and
different values yield the same SQL text, and the bound parameters are the
values. -/
theorem C1_witness :
    (insertRowStmt "users" [("name", Value.str "a")]).1
      = (insertRowStmt "users" [("name", Value.str "b")]).1 ∧
    (insertRowStmt "users" [("name", Value.str "a")]).2 = [Value.str "a"] :=
  ⟨(C1_values_bound_identifiers_unchecked [] "users" 0
      [("name", Value.str "a")] [("name", Value.str "b")] rfl).1,
   (C1_values_bound_identifiers_unchecked [] "users" 0
      [("name", Value.str "a")] [("name", Value.str "b")] rfl).2.1⟩

/-- C3: updateRow strips the server-owned keys id, created_at and
updated_at from the payload before the statement is built — the keys that
reach the SET clause are exactly the other payload keys, with no error
for the stripped ones — and a payload that is empty after stripping
yields the validation error with no statement issued at all. -/
theorem C3_updateRow_strips_and_validates
    (db : DB) (tableName : String) (id : Int) (data : List (String × Value)) :
    ((stripServerFields data).map Prod.fst =
      (data.map Prod.fst).filter
        (fun k => !(k == "id" || k == "created_at" || k == "updated_at"))) ∧
    ((updateRow db tableName id data).2 = [] ↔ stripServerFields data = []) ∧
    (stripServerFields data = [] →
      updateRow db tableName id data = (.error "No valid columns to update", [])) := by
  refine ⟨?_, ?_, ?_⟩
  · simp [stripServerFields, List.filter_map]
    rfl
  · constructor
    · intro h
      by_contra hne
      rcases hexec : execUpdateById db tableName id (stripServerFields data) with e | p
      · simp [updateRow, List.isEmpty_iff, hne, hexec] at h
      · simp [updateRow, List.isEmpty_iff, hne, hexec] at h
    · intro h
      simp [updateRow, List.isEmpty_iff, h]
  · intro h
    simp [updateRow, List.isEmpty_iff, h]

/-- C3 (witness): a payload holding only server-owned keys strips to
nothing and updateRow fails with the validation error, issuing no
statement. -/
theorem C3_witness :
    stripServerFields [("id", Value.int 1), ("created_at", Value.str "x")] = [] ∧
    updateRow [] "users" 1 [("id", Value.int 1), ("created_at", Value.str "x")] =
      (.error "No valid columns to update", []) :=
  ⟨rfl,
   (C3_updateRow_strips_and_validates [] "users" 1
      [("id", Value.int 1), ("created_at", Value.str "x")]).2.2 rfl⟩

/-- C10: deleteTable issues DROP TABLE IF EXISTS ... CASCADE — the exact
statement text carries both clauses — it always succeeds, the named table
is gone afterwards, and on a database without the table it is a no-op
rather than an error. -/
theorem C10_deleteTable_drop_if_exists (db : DB) (tableName : String) :
    (deleteTable db tableName).2 =
      [("DROP TABLE IF EXISTS " ++ tableName ++ " CASCADE", [])] ∧
    (∃ db2, (deleteTable db tableName).1 = .ok db2 ∧ tableName ∉ tableNames db2) ∧
    (tableName ∉ tableNames db → (deleteTable db tableName).1 = .ok db) := by
  refine ⟨rfl, ⟨_, rfl, ?_⟩, ?_⟩
  · intro hmem
    simp [tableNames, List.mem_map, List.mem_filter] at hmem
    rcases hmem with ⟨tbl, ⟨_, hkeep⟩, hname⟩
    simp [hname] at hkeep
  · intro habs
    have : db.filter (fun tbl => !(tbl.name == tableName)) = db := by
      rw [List.filter_eq_self]
      intro tbl hmem
      simp only [Bool.not_eq_eq_eq_not, Bool.not_true, beq_eq_false_iff_ne]
      intro hname
      exact habs (hname ▸ List.mem_map_of_mem Table.name hmem)
    simp [deleteTable, this]

/-- C10 (witness): dropping a table that does not exist succeeds and
issues the IF EXISTS CASCADE statement. -/
theorem C10_witness :
    (deleteTable [] "ghost").1 = Except.ok ([] : DB) ∧
    (deleteTable [] "ghost").2 = [("DROP TABLE IF EXISTS ghost CASCADE", [])] :=
  ⟨(C10_deleteTable_drop_if_exists [] "ghost").2.2 (by simp [tableNames]),
   ((C10_deleteTable_drop_if_exists [] "ghost").1).trans (by decide)⟩

/-- C4: the column definition createTable renders is exactly the rendering
the claim describes — name, type with the overloaded length/precision
defaults, NOT NULL, PRIMARY KEY and the identity clause each under its
stated condition — followed by the DEFAULT clause of queries.ts 153-161,
which claim C9 covers. -/
theorem C4_columnDefinition_matches_claim (col : ColumnSpec) :
    columnDefinition col = claimedColumnRendering col ++ defaultClause col := by
  rcases col with ⟨n, t, nl, pk, dv, ai⟩
  cases nl <;> cases pk <;> cases ai <;>
    simp [columnDefinition, claimedColumnRendering, renderType, String.append_assoc]

/-- C9: a VARCHAR or CHAR column with a non-blank defaultValue and
isAutoIncrement false has the field rendered twice — as the type length
and as a quoted DEFAULT literal — and a NUMERIC or DECIMAL column has it
rendered as precision,scale and again as an unquoted DEFAULT. -/
theorem C9_default_field_rendered_twice (col : ColumnSpec)
    (hdv : col.defaultValue ≠ "") (hai : col.isAutoIncrement = false) :
    ((col.type = "VARCHAR" ∨ col.type = "CHAR") →
      columnDefinition col =
        col.name ++ " " ++ col.type ++ "(" ++ col.defaultValue ++ ")" ++
          (if col.isNullable then "" else " NOT NULL") ++
          (if col.isPrimaryKey then " PRIMARY KEY" else "") ++
          " DEFAULT \x27" ++ col.defaultValue ++ "\x27") ∧
    ((col.type = "NUMERIC" ∨ col.type = "DECIMAL") →
      columnDefinition col =
        col.name ++ " " ++ col.type ++ "(" ++ col.defaultValue ++ ")" ++
          (if col.isNullable then "" else " NOT NULL") ++
          (if col.isPrimaryKey then " PRIMARY KEY" else "") ++
          " DEFAULT " ++ col.defaultValue) := by
  rcases col with ⟨n, t, nl, pk, dv, ai⟩
  simp only at hdv hai
  subst hai
  constructor
  · rintro (ht | ht) <;> subst ht <;> cases nl <;> cases pk <;>
      simp [columnDefinition, renderType, defaultClause, hdv, String.append_assoc] <;>
      repeat first
        | rfl
        | rw [← String.append_assoc]
        | congr 1
  · rintro (ht | ht) <;> subst ht <;> cases nl <;> cases pk <;>
      simp [columnDefinition, renderType, defaultClause, hdv, String.append_assoc] <;>
      repeat first
        | rfl
        | rw [← String.append_assoc]
        | congr 1

/-- C9 (witness): a nullable non-key VARCHAR column with defaultValue 100
renders with the value as both the length and the quoted default. -/
theorem C9_witness :
    columnDefinition ⟨"name", "VARCHAR", true, false, "100", false⟩ =
      "name VARCHAR(100) DEFAULT \x27100\x27" :=
  ((C9_default_field_rendered_twice ⟨"name", "VARCHAR", true, false, "100", false⟩
      (by decide) rfl).1 (Or.inl rfl)).trans (by decide)

/-- C8 (counterexample): the claim fails on the VARCHAR/CHAR length
condition — validateForm accepts a specification whose VARCHAR column has
the default field abc, which parses to no value at all (JS parseInt gives
NaN, and NaN compared less-or-equal zero is false, so the rejection test
passes it). -/
theorem C8_counterexample : ¬ claimedCreateTableRejection := by
  intro h
  have hrej := h "users"
    [⟨"id", "SERIAL", false, true, "", true⟩,
     ⟨"name", "VARCHAR", true, false, "abc", false⟩]
    (Or.inr (Or.inr (Or.inr (Or.inr
      ⟨⟨"name", "VARCHAR", true, false, "abc", false⟩, by decide, Or.inl rfl,
       by
        intro k hk
        rw [show parseIntJS "abc" = none by decide] at hk
        exact Option.noConfusion hk⟩))))
  rw [show validateForm "users"
      [⟨"id", "SERIAL", false, true, "", true⟩,
       ⟨"name", "VARCHAR", true, false, "abc", false⟩] = true by decide] at hrej
  exact Bool.noConfusion hrej

/-- C8 (amended): validateForm rejects any specification whose table name
or some column name fails the identifier pattern, with fewer than 2
columns, with no primary-key column, or with a VARCHAR/CHAR column whose
default field is blank or whose JS parseInt value compares less-or-equal
zero; a default field with no leading digits (parseInt NaN) is not
rejected by the length check. -/
theorem C8_validateForm_rejections (tableName : String) (columns : List ColumnSpec)
    (h : ¬ matchesIdentPattern tableName = true ∨
         (∃ c ∈ columns, ¬ matchesIdentPattern c.name = true) ∨
         columns.length < 2 ∨
         (∀ c ∈ columns, c.isPrimaryKey = false) ∨
         (∃ c ∈ columns, (c.type = "VARCHAR" ∨ c.type = "CHAR") ∧
            (c.defaultValue = "" ∨ parsesNonpositive c.defaultValue = true))) :
    validateForm tableName columns = false := by
  rcases h with hpat | ⟨c, hc, hcpat⟩ | hlen | hpk | ⟨c, hc, hty, hdv⟩
  · rw [Bool.eq_false_iff]
    intro hv
    simp only [validateForm, Bool.and_eq_true] at hv
    exact hpat hv.1.1.1.2
  · rw [Bool.eq_false_iff]
    intro hv
    simp only [validateForm, Bool.and_eq_true, List.all_eq_true] at hv
    have := hv.2 c hc
    simp only [validColumn, Bool.and_eq_true] at this
    exact hcpat this.1.2
  · simp only [validateForm]
    have : decide (columns.length < 2) = true := decide_eq_true hlen
    simp [this]
  · simp only [validateForm]
    have : columns.any ColumnSpec.isPrimaryKey = false := by
      simp only [List.any_eq_false]
      intro c hc
      simp [hpk c hc]
    simp [this]
  · rw [Bool.eq_false_iff]
    intro hv
    simp only [validateForm, Bool.and_eq_true, List.all_eq_true] at hv
    have hvc := hv.2 c hc
    simp only [validColumn, Bool.and_eq_true] at hvc
    have hif : (if c.type == "VARCHAR" || c.type == "CHAR" then
        !(c.defaultValue == "" || parsesNonpositive c.defaultValue)
      else true) = true := hvc.2
    have hty' : (c.type == "VARCHAR" || c.type == "CHAR") = true := by
      rcases hty with hty | hty <;> simp [hty]
    rw [hty'] at hif
    simp only [if_true, Bool.not_eq_true', Bool.or_eq_false_iff] at hif
    rcases hdv with hdv | hdv
    · rw [hdv] at hif
      simp at hif
    · rw [hdv] at hif
      exact Bool.noConfusion hif.2

/-- C8 (witness): the table name 1abc from the spec's example is rejected
on a two-column specification with a primary key. -/
theorem C8_witness :
    validateForm "1abc"
      [⟨"id", "SERIAL", false, true, "", true⟩,
       ⟨"name", "TEXT", true, false, "", false⟩] = false :=
  C8_validateForm_rejections "1abc"
    [⟨"id", "SERIAL", false, true, "", true⟩,
     ⟨"name", "TEXT", true, false, "", false⟩]
    (Or.inl (by decide))

/-- Rows-affected test of the delete paths: rowCount positive is the same
boolean as some row carrying the id. -/
theorem decide_exists_eq_any (l : List Row) (id : Int) :
    decide (∃ a ∈ l, a.id = id) = l.any (fun r => r.id == id) := by
  cases h : l.any (fun r => r.id == id)
  · simp only [List.any_eq_false] at h
    simp only [decide_eq_false_iff_not, not_exists]
    intro a hconj
    have hne := h a hconj.1
    simp only [beq_iff_eq] at hne
    exact hne hconj.2
  · simp only [List.any_eq_true] at h
    rcases h with ⟨a, ha, hid⟩
    simp only [decide_eq_true_eq]
    exact ⟨a, ha, by simpa using hid⟩

/-- Rows-affected test of the soft-delete update: the count of matching
rows is positive exactly when some row carries the id. -/
theorem decide_filter_length_pos_eq_any (l : List Row) (id : Int) :
    decide (0 < (l.filter (fun r => r.id == id)).length) = l.any (fun r => r.id == id) := by
  cases h : l.any (fun r => r.id == id)
  · simp only [List.any_eq_false] at h
    have hnil : l.filter (fun r => r.id == id) = [] := List.filter_eq_nil_iff.mpr h
    simp [hnil]
  · simp only [List.any_eq_true] at h
    rcases h with ⟨a, ha, hid⟩
    have hmem : a ∈ l.filter (fun r => r.id == id) := List.mem_filter.mpr ⟨ha, hid⟩
    have hpos : 0 < (l.filter (fun r => r.id == id)).length := List.length_pos_of_mem hmem
    simp [hpos]

/-- With distinct table names, a catalog hit for a column on the named
table speaks about the table findTable resolves. -/
theorem columnExists_of_findTable (db : DB) (t : String) (tbl : Table) (c : String)
    (hwf : (tableNames db).Nodup) (hfind : findTable db t = some tbl)
    (hex : columnExists db t c = true) :
    tbl.columns.any (fun col => col.column_name == c) = true := by
  rcases List.any_eq_true.mp hex with ⟨tbl2, hmem2, hp⟩
  rw [Bool.and_eq_true] at hp
  have hname2 : tbl2.name = t := by simpa using hp.1
  have hmem : tbl ∈ db := List.mem_of_find?_eq_some hfind
  have hname : tbl.name = t := by simpa using List.find?_some hfind
  have heq : tbl2 = tbl :=
    List.inj_on_of_nodup_map hwf hmem2 hmem (by rw [hname2, hname])
  rw [← heq]
  exact hp.2

/-- C2: deleteRow with hard true executes the physical DELETE and returns
whether a row was removed; with hard false it first issues the catalog
probe for a column literally named is_deleted on the table, and when that
column exists it executes the UPDATE setting is_deleted to the text true
and returns whether a row was affected, otherwise it falls back to the
physical DELETE with the same result as hard deletion. -/
theorem C2_deleteRow_policy (db : DB) (tbl : Table) (tableName : String) (id : Int)
    (hwf : (tableNames db).Nodup)
    (hfind : findTable db tableName = some tbl) :
    ((deleteRow db tableName id true).1 =
      .ok (replaceTable db { tbl with rows := tbl.rows.filter (fun r => !(r.id == id)) },
           tbl.rows.any (fun r => r.id == id))) ∧
    (columnExists db tableName "is_deleted" = true →
      ((deleteRow db tableName id false).1 =
        .ok (replaceTable db { tbl with rows := tbl.rows.map (fun r =>
              if r.id == id then applySets r [("is_deleted", Value.str "true")] else r) },
             tbl.rows.any (fun r => r.id == id)) ∧
      (deleteRow db tableName id false).2 =
        [isDeletedCheckStmt tableName, softDeleteStmt tableName id])) ∧
    (columnExists db tableName "is_deleted" = false →
      (deleteRow db tableName id false).1 = (deleteRow db tableName id true).1) := by
  refine ⟨?_, ?_, ?_⟩
  · simp [deleteRow, execDeleteById, hfind]
    exact decide_exists_eq_any tbl.rows id
  · intro hex
    have hcol := columnExists_of_findTable db tableName tbl "is_deleted" hwf hfind hex
    have hsets : ([("is_deleted", Value.str "true")] : List (String × Value)).all
        (fun kv => tbl.columns.any (fun c => c.column_name == kv.1)) = true := by
      simpa using hcol
    constructor
    · simp [deleteRow, hex, execUpdateById, hfind, hsets]
      exact decide_filter_length_pos_eq_any tbl.rows id
    · simp [deleteRow, hex, execUpdateById, hfind, hsets]
  · intro hex
    simp [deleteRow, hex, execDeleteById, hfind]

/-- C2 (witness): a soft delete against a concrete table carrying an
is_deleted column marks the row instead of removing it and reports a row
affected. -/
theorem C2_witness :
    (deleteRow [⟨"notes",
        [⟨"id", "integer", "NO", none⟩, ⟨"is_deleted", "text", "YES", none⟩],
        [⟨1, [("is_deleted", Value.str "false")]⟩]⟩] "notes" 1 false).1 =
      Except.ok ([⟨"notes",
        [⟨"id", "integer", "NO", none⟩, ⟨"is_deleted", "text", "YES", none⟩],
        [⟨1, [("is_deleted", Value.str "true")]⟩]⟩], true) :=
  (((C2_deleteRow_policy [⟨"notes",
        [⟨"id", "integer", "NO", none⟩, ⟨"is_deleted", "text", "YES", none⟩],
        [⟨1, [("is_deleted", Value.str "false")]⟩]⟩]
      ⟨"notes",
        [⟨"id", "integer", "NO", none⟩, ⟨"is_deleted", "text", "YES", none⟩],
        [⟨1, [("is_deleted", Value.str "false")]⟩]⟩
      "notes" 1 (by decide) rfl).2.1 (by decide)).1).trans (by rfl)

/-- C6: when some row carries the requested id, updateRow returns the
post-update row; when no row does, it returns with zero rows matched
(result none) rather than an error. -/
theorem C6_updateRow_found_or_zero_rows
    (db : DB) (tableName : String) (id : Int) (data : List (String × Value)) (tbl : Table)
    (hfind : findTable db tableName = some tbl)
    (hne : stripServerFields data ≠ [])
    (hcols : (stripServerFields data).all
      (fun kv => tbl.columns.any (fun c => c.column_name == kv.1)) = true) :
    ((∀ r ∈ tbl.rows, r.id ≠ id) →
      (updateRow db tableName id data).1 = .ok (replaceTable db tbl, none)) ∧
    (∀ r ∈ tbl.rows, r.id = id → (∀ s ∈ tbl.rows, s.id = id → s = r) →
      (updateRow db tableName id data).1 =
        .ok (replaceTable db { tbl with rows := tbl.rows.map (fun s =>
              if s.id == id then applySets s (stripServerFields data) else s) },
             some (applySets r (stripServerFields data)))) := by
  constructor
  · intro hno
    have hmap : tbl.rows.map
        (fun s => if s.id = id then applySets s (stripServerFields data) else s) = tbl.rows := by
      conv_rhs => rw [← List.map_id tbl.rows]
      apply List.map_congr_left
      intro s hs
      simp [hno s hs]
    have hfil : tbl.rows.filter (fun r => r.id == id) = [] := by
      rw [List.filter_eq_nil_iff]
      intro r hr
      simp [hno r hr]
    simp [updateRow, List.isEmpty_iff, hne, execUpdateById, hfind, hcols, hmap, hfil]
  · intro r hr hid huniq
    have hhead : (tbl.rows.filter (fun s => s.id == id)).head? = some r := by
      cases hfil : tbl.rows.filter (fun s => s.id == id) with
      | nil =>
        have hrin : r ∈ tbl.rows.filter (fun s => s.id == id) :=
          List.mem_filter.mpr ⟨hr, by simp [hid]⟩
        rw [hfil] at hrin
        exact absurd hrin (List.not_mem_nil r)
      | cons a l =>
        have ha : a ∈ tbl.rows.filter (fun s => s.id == id) := by
          rw [hfil]; exact List.mem_cons_self a l
        rcases List.mem_filter.mp ha with ⟨hamem, haid⟩
        have : a = r := huniq a hamem (by simpa using haid)
        simp [this]
    simp [updateRow, List.isEmpty_iff, hne, execUpdateById, hfind, hcols,
      List.head?_map, hhead]

/-- C6 (witness): updating the name of the unique row with id 1 returns
the post-update row. -/
theorem C6_witness :
    (updateRow [⟨"users",
        [⟨"id", "integer", "NO", none⟩, ⟨"name", "text", "YES", none⟩],
        [⟨1, [("name", Value.str "a")]⟩]⟩] "users" 1 [("name", Value.str "b")]).1 =
      Except.ok ([⟨"users",
        [⟨"id", "integer", "NO", none⟩, ⟨"name", "text", "YES", none⟩],
        [⟨1, [("name", Value.str "b")]⟩]⟩],
        some ⟨1, [("name", Value.str "b")]⟩) :=
  ((C6_updateRow_found_or_zero_rows [⟨"users",
        [⟨"id", "integer", "NO", none⟩, ⟨"name", "text", "YES", none⟩],
        [⟨1, [("name", Value.str "a")]⟩]⟩] "users" 1 [("name", Value.str "b")]
      ⟨"users",
        [⟨"id", "integer", "NO", none⟩, ⟨"name", "text", "YES", none⟩],
        [⟨1, [("name", Value.str "a")]⟩]⟩
      rfl (by decide) (by decide)).2
    ⟨1, [("name", Value.str "a")]⟩ (by decide) rfl (by decide)).trans (by rfl)

/-- Resolution of a fresh table name after appending the new table: the
lookup lands on the appended table. -/
theorem findTable_append_fresh (db : DB) (tbl : Table)
    (habs : tbl.name ∉ tableNames db) :
    findTable (db ++ [tbl]) tbl.name = some tbl := by
  have hnone : findTable db tbl.name = none := by
    rw [findTable, List.find?_eq_none]
    intro x hx
    simp only [beq_iff_eq]
    intro hname
    exact habs (hname ▸ List.mem_map_of_mem Table.name hx)
  rw [findTable, List.find?_append]
  rw [findTable] at hnone
  simp [hnone]

/-- Catalog probes about a fresh table name see only the appended
table. -/
theorem columnExists_append_fresh (db : DB) (tbl : Table) (c : String)
    (habs : tbl.name ∉ tableNames db) :
    columnExists (db ++ [tbl]) tbl.name c =
      tbl.columns.any (fun col => col.column_name == c) := by
  rw [columnExists, List.any_append]
  have hleft : db.any (fun x => x.name == tbl.name &&
      x.columns.any (fun col => col.column_name == c)) = false := by
    simp only [List.any_eq_false]
    intro x hx
    have hname : x.name ≠ tbl.name := by
      intro heq
      exact habs (heq ▸ List.mem_map_of_mem Table.name hx)
    simp [hname]
  simp [hleft]

/-- C5: on a fresh table name createTable succeeds and the created table
carries a created_at column — the caller's own when declared, and
otherwise the one the follow-up ALTER TABLE appends with the
CURRENT_TIMESTAMP default. -/
theorem C5_createTable_ensures_created_at
    (db : DB) (tableName : String) (columns : List ColumnSpec)
    (habs : tableName ∉ tableNames db) :
    ∃ db2, (createTable db tableName columns).1 = .ok db2 ∧
      columnExists db2 tableName "created_at" = true ∧
      ("created_at" ∉ columns.map ColumnSpec.name →
        db2.getLast? = some
          ⟨tableName, columns.map specToColumn ++
            [⟨"created_at", "timestamp without time zone", "YES",
              some "CURRENT_TIMESTAMP"⟩], []⟩) := by
  have hfind0 : findTable db tableName = none := by
    rw [findTable, List.find?_eq_none]
    intro x hx
    simp only [beq_iff_eq]
    intro hname
    exact habs (hname ▸ List.mem_map_of_mem Table.name hx)
  have hcreate : execCreateTable db tableName columns =
      .ok (db ++ [⟨tableName, columns.map specToColumn, []⟩]) := by
    simp [execCreateTable, hfind0]
  have hdecl : (columns.map specToColumn).any
        (fun col => col.column_name == "created_at") = true ↔
      "created_at" ∈ columns.map ColumnSpec.name := by
    simp only [List.any_eq_true, beq_iff_eq, List.mem_map]
    constructor
    · rintro ⟨col, hcol, hname⟩
      rcases hcol with ⟨c, hc, rfl⟩
      exact ⟨c, hc, hname⟩
    · rintro ⟨c, hc, hname⟩
      exact ⟨specToColumn c, ⟨c, hc, rfl⟩, hname⟩
  have hex := columnExists_append_fresh db
    ⟨tableName, columns.map specToColumn, []⟩ "created_at" habs
  cases hc : (columns.map specToColumn).any (fun col => col.column_name == "created_at") with
  | true =>
    refine ⟨db ++ [⟨tableName, columns.map specToColumn, []⟩], ?_, ?_, ?_⟩
    · simp [createTable, hcreate, hex, hc]
    · rw [hex]; exact hc
    · intro hnot
      exact absurd (hdecl.mp hc) hnot
  | false =>
    have hfind1 := findTable_append_fresh db
      ⟨tableName, columns.map specToColumn, []⟩ habs
    have halter : execAddCreatedAt (db ++ [⟨tableName, columns.map specToColumn, []⟩])
        tableName =
        .ok (replaceTable (db ++ [⟨tableName, columns.map specToColumn, []⟩])
          ⟨tableName, columns.map specToColumn ++
            [⟨"created_at", "timestamp without time zone", "YES",
              some "CURRENT_TIMESTAMP"⟩], []⟩) := by
      simp [execAddCreatedAt, hfind1]
    have hrepl : replaceTable (db ++ [⟨tableName, columns.map specToColumn, []⟩])
        ⟨tableName, columns.map specToColumn ++
          [⟨"created_at", "timestamp without time zone", "YES",
            some "CURRENT_TIMESTAMP"⟩], []⟩ =
        db.map (fun x =>
          if x.name == tableName then
            ⟨tableName, columns.map specToColumn ++
              [⟨"created_at", "timestamp without time zone", "YES",
                some "CURRENT_TIMESTAMP"⟩], []⟩
          else x) ++
        [⟨tableName, columns.map specToColumn ++
          [⟨"created_at", "timestamp without time zone", "YES",
            some "CURRENT_TIMESTAMP"⟩], []⟩] := by
      rw [replaceTable, List.map_append]
      simp
    have hmapid : db.map (fun x =>
        if x.name == tableName then
          (⟨tableName, columns.map specToColumn ++
            [⟨"created_at", "timestamp without time zone", "YES",
              some "CURRENT_TIMESTAMP"⟩], []⟩ : Table)
        else x) = db := by
      conv_rhs => rw [← List.map_id db]
      apply List.map_congr_left
      intro x hx
      have hname : x.name ≠ tableName := by
        intro heq
        exact habs (heq ▸ List.mem_map_of_mem Table.name hx)
      simp [hname]
    refine ⟨replaceTable (db ++ [⟨tableName, columns.map specToColumn, []⟩])
      ⟨tableName, columns.map specToColumn ++
        [⟨"created_at", "timestamp without time zone", "YES",
          some "CURRENT_TIMESTAMP"⟩], []⟩, ?_, ?_, ?_⟩
    · simp [createTable, hcreate, hex, hc, halter]
    · rw [hrepl, hmapid, columnExists_append_fresh db _ "created_at" habs]
      simp
    · intro _
      rw [hrepl, hmapid]
      exact List.getLast?_concat db

/-- C5 (witness): creating a table whose columns omit created_at yields a
table that carries the audit column with the CURRENT_TIMESTAMP default. -/
theorem C5_witness :
    ∃ db2, (createTable [] "users"
        [⟨"id", "SERIAL", false, true, "", true⟩,
         ⟨"name", "TEXT", true, false, "", false⟩]).1 = .ok db2 ∧
      columnExists db2 "users" "created_at" = true ∧
      ("created_at" ∉ ([⟨"id", "SERIAL", false, true, "", true⟩,
          ⟨"name", "TEXT", true, false, "", false⟩] : List ColumnSpec).map
            ColumnSpec.name →
        db2.getLast? = some
          ⟨"users", [⟨"id", "SERIAL", false, true, "", true⟩,
              ⟨"name", "TEXT", true, false, "", false⟩].map specToColumn ++
            [⟨"created_at", "timestamp without time zone", "YES",
              some "CURRENT_TIMESTAMP"⟩], []⟩) :=
  C5_createTable_ensures_created_at [] "users"
    [⟨"id", "SERIAL", false, true, "", true⟩,
     ⟨"name", "TEXT", true, false, "", false⟩]
    (by simp [tableNames])

/-- Positions produced by enumeration are strictly increasing. -/
theorem pairwise_fst_lt_enumFrom {α : Type} (l : List α) (n : Nat) :
    (l.enumFrom n).Pairwise (fun a b => a.1 < b.1) := by
  induction l generalizing n with
  | nil => simp
  | cons x xs ih =>
    simp only [List.enumFrom, List.pairwise_cons]
    constructor
    · intro p hp
      have := List.le_fst_of_mem_enumFrom hp
      omega
    · exact ih (n + 1)

/-- A catalog filter on a table name the database does not carry selects
nothing. -/
theorem catalog_filter_not_mem (db : DB) (t : String)
    (habs : t ∉ tableNames db) :
    (catalogColumns db).filter (fun r => r.1 == t) = [] := by
  rw [List.filter_eq_nil_iff]
  intro r hr
  rw [catalogColumns, List.mem_flatMap] at hr
  rcases hr with ⟨tbl, htbl, hmem⟩
  rcases List.mem_map.mp hmem with ⟨ic, _, rfl⟩
  simp only [beq_iff_eq]
  intro h1
  exact habs (h1 ▸ List.mem_map_of_mem Table.name htbl)

/-- With distinct table names, the catalog filter on a resolvable table
name selects exactly that table's enumerated columns, in declared
order. -/
theorem catalog_filter_found (db : DB) (t : String) (tbl : Table)
    (hwf : (tableNames db).Nodup) (hfind : findTable db t = some tbl) :
    (catalogColumns db).filter (fun r => r.1 == t) =
      tbl.columns.enum.map (fun ic => (tbl.name, ic.1 + 1, ic.2)) := by
  induction db with
  | nil => simp [findTable] at hfind
  | cons x xs ih =>
    rw [tableNames, List.map_cons, List.nodup_cons] at hwf
    rw [catalogColumns] at *
    rw [List.flatMap_cons, List.filter_append]
    cases hx : (x.name == t) with
    | true =>
      have hxt : x.name = t := by simpa using hx
      have hfx : findTable (x :: xs) t = some x := List.find?_cons_of_pos xs hx
      rw [hfind] at hfx
      have htbl : tbl = x := by
        injection hfx with h
      subst htbl
      have hself : (tbl.columns.enum.map (fun ic => (tbl.name, ic.1 + 1, ic.2))).filter
          (fun r => r.1 == t) =
          tbl.columns.enum.map (fun ic => (tbl.name, ic.1 + 1, ic.2)) := by
        rw [List.filter_eq_self]
        intro a ha
        rcases List.mem_map.mp ha with ⟨ic, _, rfl⟩
        exact hx
      have hrest : (xs.flatMap (fun tb => tb.columns.enum.map
          (fun ic => (tb.name, ic.1 + 1, ic.2)))).filter (fun r => r.1 == t) = [] := by
        have habs : t ∉ tableNames xs := by
          rw [← hxt]
          exact hwf.1
        exact catalog_filter_not_mem xs t habs
      rw [hself, hrest, List.append_nil]
    | false =>
      have hfx : findTable (x :: xs) t = findTable xs t :=
        List.find?_cons_of_neg xs (by simp [hx])
      rw [hfx] at hfind
      have hxpart : (x.columns.enum.map (fun ic => (x.name, ic.1 + 1, ic.2))).filter
          (fun r => r.1 == t) = [] := by
        rw [List.filter_eq_nil_iff]
        intro a ha
        rcases List.mem_map.mp ha with ⟨ic, _, rfl⟩
        simp only [Bool.not_eq_true]
        exact hx
      rw [hxpart, List.nil_append]
      exact ih hwf.2 hfind

/-- C7: getTableSchema returns the named table's columns in their declared
physical order — the ORDER BY on the ordinal position is the identity on
the already-ordered catalog entries — and on an absent table it returns
the empty sequence rather than an error. -/
theorem C7_getTableSchema_ordered_or_empty (db : DB) (tableName : String)
    (hwf : (tableNames db).Nodup) :
    (∀ tbl, findTable db tableName = some tbl →
      getTableSchema db tableName = tbl.columns) ∧
    (tableName ∉ tableNames db → getTableSchema db tableName = []) := by
  constructor
  · intro tbl hfind
    rw [getTableSchema, catalog_filter_found db tableName tbl hwf hfind]
    have hsorted : (tbl.columns.enum.map (fun ic => (tbl.name, ic.1 + 1, ic.2))).Pairwise
        (fun a b => (decide (a.2.1 ≤ b.2.1)) = true) := by
      rw [List.pairwise_map]
      refine List.Pairwise.imp ?_ (pairwise_fst_lt_enumFrom tbl.columns 0)
      intro a b hab
      simp only [decide_eq_true_eq]
      omega
    rw [orderByOrdinal, List.mergeSort_of_sorted hsorted, List.map_map]
    have hcomp : ((fun r : String × Nat × Column => r.2.2) ∘
        (fun ic : Nat × Column => (tbl.name, ic.1 + 1, ic.2))) = Prod.snd := by
      funext ic
      rfl
    rw [hcomp]
    exact List.enumFrom_map_snd 0 tbl.columns
  · intro habs
    rw [getTableSchema, catalog_filter_not_mem db tableName habs]
    simp [orderByOrdinal]

/-- C7 (witness): a two-column table comes back from getTableSchema in
declared order, and a name the catalog does not know yields the empty
sequence. -/
theorem C7_witness :
    getTableSchema [⟨"users",
      [⟨"id", "integer", "NO", none⟩, ⟨"name", "text", "YES", none⟩], []⟩] "users" =
      [⟨"id", "integer", "NO", none⟩, ⟨"name", "text", "YES", none⟩] ∧
    getTableSchema [⟨"users",
      [⟨"id", "integer", "NO", none⟩, ⟨"name", "text", "YES", none⟩], []⟩] "ghost" = [] :=
  ⟨(C7_getTableSchema_ordered_or_empty [⟨"users",
      [⟨"id", "integer", "NO", none⟩, ⟨"name", "text", "YES", none⟩], []⟩] "users"
      (by decide)).1
    ⟨"users", [⟨"id", "integer", "NO", none⟩, ⟨"name", "text", "YES", none⟩], []⟩ rfl,
   (C7_getTableSchema_ordered_or_empty [⟨"users",
      [⟨"id", "integer", "NO", none⟩, ⟨"name", "text", "YES", none⟩], []⟩] "ghost"
      (by decide)).2 (by decide)⟩

end Tomulator
